import Mathlib

/-!
Verification development for the SAND Earth-observation download library.

Each definition below is a shallow embedding of a function of the SAND
source tree (`src/sand/...`); the source file and function are named in
the doc comment.  Strings are modelled as `List Char` where substring
operations matter, numbers that the Python code manipulates with `%` and
comparisons are modelled as `ℚ` (exact rational arithmetic), fallible
code returns `Except`.
-/

namespace Sand

/-! ## String helpers (Python `in`, `str.startswith`, `str.endswith`) -/

/-- Python `name.startswith(p)`: `p` is a prefix of `s`. -/
def startsWithB : List Char → List Char → Bool
  | _, [] => true
  | [], _ :: _ => false
  | c :: s, d :: p => c = d && startsWithB s p

/-- Python `e in name`: `p` occurs as a contiguous substring of `s`. -/
def containsSubB : List Char → List Char → Bool
  | s, p =>
    if startsWithB s p then true
    else match s with
      | [] => false
      | _ :: t => containsSubB t p

/-- Python `name.endswith(p)`: `p` is a suffix of `s`. -/
def endsWithB (s p : List Char) : Bool :=
  startsWithB s.reverse p.reverse

/-! ## Regular expressions (model of Python `re.fullmatch`)

The Python source stores a pattern string and calls `re.fullmatch`; we
embed the pattern already parsed into a regex AST.  `dot` is Python `.`,
which matches any character except a newline (no `re.DOTALL`). -/

inductive Regex where
  | fail : Regex
  | eps : Regex
  | lit : Char → Regex
  | dot : Regex
  | cat : Regex → Regex → Regex
  | alt : Regex → Regex → Regex
  | star : Regex → Regex
  deriving DecidableEq

/-- Whether the regex accepts the empty string. -/
def Regex.nullable : Regex → Bool
  | .fail => false
  | .eps => true
  | .lit _ => false
  | .dot => false
  | .cat r1 r2 => r1.nullable && r2.nullable
  | .alt r1 r2 => r1.nullable || r2.nullable
  | .star _ => true

/-- Smart concatenation (used by the derivative). -/
def Regex.catS : Regex → Regex → Regex
  | .fail, _ => .fail
  | _, .fail => .fail
  | .eps, r => r
  | r, .eps => r
  | r1, r2 => .cat r1 r2

/-- Smart alternation (used by the derivative). -/
def Regex.altS : Regex → Regex → Regex
  | .fail, r => r
  | r, .fail => r
  | r1, r2 => .alt r1 r2

/-- Brzozowski derivative of a regex by one character; Python `.`
matches any character except `'\n'`. -/
def Regex.deriv : Regex → Char → Regex
  | .fail, _ => .fail
  | .eps, _ => .fail
  | .lit c, d => if c = d then .eps else .fail
  | .dot, d => if d = '\n' then .fail else .eps
  | .cat r1 r2, d =>
    if r1.nullable then .altS (.catS (r1.deriv d) r2) (r2.deriv d)
    else .catS (r1.deriv d) r2
  | .alt r1 r2, d => .altS (r1.deriv d) (r2.deriv d)
  | .star r, d => .catS (r.deriv d) (.star r)

/-- Model of Python `re.fullmatch(pattern, s)` (as a Bool, like
`sand/utils.py: check_name_glob` uses it). -/
def Regex.fullmatch (r : Regex) (s : List Char) : Bool :=
  (s.foldl Regex.deriv r).nullable

/-! ## `sand/utils.py` name checks -/

/-- `sand/utils.py: check_name_contains` —
`all(e in name for e in elements)`. -/
def check_name_contains (name : List Char) (elements : List (List Char)) : Bool :=
  elements.all (fun e => containsSubB name e)

/-- `sand/utils.py: check_name_startswith` — `name.startswith(p)`. -/
def check_name_startswith (name p : List Char) : Bool :=
  startsWithB name p

/-- `sand/utils.py: check_name_endswith` — `name.endswith(p)`. -/
def check_name_endswith (name p : List Char) : Bool :=
  endsWithB name p

/-- `sand/utils.py: check_name_glob` — `bool(fullmatch(regexp, name))`,
with the pattern string already parsed into a `Regex`. -/
def check_name_glob (name : List Char) (regexp : Regex) : Bool :=
  regexp.fullmatch name

/-! ## `sand/constraint.py: Name` -/

/-- `sand/constraint.py: Name`.  Python defaults: `contains=[]`,
`startswith=""`, `endswith=""`, `glob=".*"` (`".*"` parses to
`Regex.star Regex.dot`). -/
structure Name where
  contains : List (List Char) := []
  startswith : List Char := []
  endswith : List Char := []
  glob : Regex := .star .dot
  deriving DecidableEq

/-- `sand/constraint.py: Name.add_contains` — `self.contains += elements`. -/
def Name.add_contains (n : Name) (elements : List (List Char)) : Name :=
  { n with contains := n.contains ++ elements }

/-- `sand/constraint.py: Name.apply` — conjunction of the four checks. -/
def Name.apply (n : Name) (name : List Char) : Bool :=
  check_name_contains name n.contains &&
  check_name_startswith name n.startswith &&
  check_name_endswith name n.endswith &&
  check_name_glob name n.glob

/-! ## `sand/constraint.py: _check_latlon`

`log` is the external `core.log` helper: `log.warning` reports without
failing, `log.error` fails.  We record both outcomes. -/

/-- Outcome of `_check_latlon`: `fails` is true iff `log.error` runs,
`warns` iff `log.warning` runs. -/
structure LatLonCheck where
  fails : Bool
  warns : Bool
  deriving DecidableEq

/-- `sand/constraint.py: _check_latlon` —
warns iff not `-180 <= lon < 360`, fails iff not `-90 <= lat < 90`. -/
def _check_latlon (lat lon : ℚ) : LatLonCheck :=
  { warns := !(decide (-180 ≤ lon ∧ lon < 360))
    fails := !(decide (-90 ≤ lat ∧ lat < 90)) }

/-! ## Longitude convention change (`sand/tinyfunc.py`, `sand/constraint.py`) -/

/-- Python `a % b` on exact numbers: `a - b * floor(a / b)`. -/
def pymod (a b : ℚ) : ℚ :=
  a - b * (⌊a / b⌋ : ℚ)

/-- `sand/tinyfunc.py: change_lon_convention`, `center=0` branch applied
to one longitude: `(a+180)%360-180`. -/
def lon_to_0 (a : ℚ) : ℚ :=
  pymod (a + 180) 360 - 180

/-- `sand/tinyfunc.py: change_lon_convention`, `center=180` branch
applied to one longitude: `a%360`. -/
def lon_to_180 (a : ℚ) : ℚ :=
  pymod a 360

/-- `sand/constraint.py: _change_lon_convention` —
`pivot = 180 - center; (lon+pivot) % 360 - pivot`. -/
def _change_lon_convention (lon center : ℚ) : ℚ :=
  pymod (lon + (180 - center)) 360 - (180 - center)

/-! ## JSON values (wire responses) -/

/-- JSON values as delivered by `response.json()`. -/
inductive Json where
  | null : Json
  | jbool : Bool → Json
  | jint : Int → Json
  | jstr : String → Json
  | jarr : List Json → Json
  | jobj : List (String × Json) → Json

/-- Python `==` on JSON values (structural equality). -/
def jsonBeq : Json → Json → Bool
  | .null, .null => true
  | .jbool a, .jbool b => a == b
  | .jint a, .jint b => a == b
  | .jstr a, .jstr b => a == b
  | .jarr [], .jarr [] => true
  | .jarr (x :: xs), .jarr (y :: ys) => jsonBeq x y && jsonBeq (.jarr xs) (.jarr ys)
  | .jobj [], .jobj [] => true
  | .jobj ((k1, v1) :: xs), .jobj ((k2, v2) :: ys) =>
      k1 == k2 && jsonBeq v1 v2 && jsonBeq (.jobj xs) (.jobj ys)
  | _, _ => false
termination_by x y => (sizeOf x, sizeOf y)
decreasing_by all_goals (simp_wf; omega)

/-- Lookup of a key in a JSON object field list (first match). -/
def lookupField : List (String × Json) → String → Option Json
  | [], _ => none
  | (k, v) :: rest, key => if k == key then some v else lookupField rest key

/-- Python `x[k]` on a JSON value: defined on objects holding the key. -/
def jsonGetKey : Json → String → Option Json
  | .jobj fields, key => lookupField fields key
  | _, _ => none

/-- `reduce(lambda x,k: x[k], tags, response)` from
`sand/base.py: check_too_many_matches`; `none` models the `KeyError` /
`TypeError` Python raises when a key is missing on the path. -/
def reduceTags (tags : List String) (response : Json) : Option Json :=
  tags.foldlM (fun acc k => jsonGetKey acc k) response

/-- Failures of the query path: a missing key on a tag path
(Python `KeyError`), or the `RequestsError` raised by
`log.check(returned == matches, "The query returned too many matches…")`
(the spec's `TooManyMatches`). -/
inductive QueryErr where
  | keyError : QueryErr
  | tooManyMatches : QueryErr
  deriving DecidableEq

/-- `sand/base.py: check_too_many_matches` — extracts the returned and
matched counts along the two tag paths and fails iff they differ. -/
def check_too_many_matches (response : Json)
    (returned_tag hit_tag : List String) : Except QueryErr Unit :=
  match reduceTags returned_tag response, reduceTags hit_tag response with
  | some returned, some nmatched =>
      if jsonBeq returned nmatched then .ok () else .error .tooManyMatches
  | _, _ => .error .keyError

/-! ## HTTP responses, `raise_api_error`, and the download loops -/

/-- The part of a `requests` response the download engine inspects:
the status code and the optional `Location` header. -/
structure HttpResponse where
  status_code : Nat
  location : Option String := none

/-- Failures of the transfer engine: the `ValueError` raised on a
redirect without `Location`, the `RequestsError` raised by
`raise_api_error` for a status (tagged with that status), the
`RuntimeError` raised when the CDSE retry counter is exhausted, and the
`requests.exceptions.TooManyRedirects` the HTTP library raises when a
chain exceeds its own redirect cap. -/
inductive DlErr where
  | valueError : DlErr
  | apiError : Nat → DlErr
  | runtimeError : DlErr
  | tooManyRedirects : DlErr
  deriving DecidableEq

/-- `sand/base.py: raise_api_error` — fails iff `status_code > 300`,
otherwise returns the status code. -/
def raise_api_error (response : HttpResponse) : Except DlErr Nat :=
  if response.status_code > 300 then .error (.apiError response.status_code)
  else .ok response.status_code

/-- `response.status_code in (301, 302, 303, 307)` — the check of the
engine's own redirect loop. -/
def isRedirectStatus (s : Nat) : Bool :=
  s == 301 || s == 302 || s == 303 || s == 307

/-- `Response.is_redirect` of the requests library: status in its
`REDIRECT_STATI` (301, 302, 303, 307, 308) and a `Location` header
present — the condition under which the library itself follows. -/
def isLibRedirectStatus (s : Nat) : Bool :=
  s == 301 || s == 302 || s == 303 || s == 307 || s == 308

/-- Model of `session.get(url, allow_redirects=True)` (the in-loop
requests of `nasa.py:262` and `copernicus_dataspace.py:212`): the
requests library internally follows the redirect chain while the
response `is_redirect`, raising `TooManyRedirects` once its budget
(`DEFAULT_REDIRECT_LIMIT = 30`) is exhausted, and returns the final
response.  The server is modelled as a linear chain: `hops k` is the
response at chain position `k`, and each `Location` leads to the next
position.  Returns the final response with its chain position. -/
def requests_get (hops : Nat → HttpResponse) :
    Nat → Nat → Except DlErr (HttpResponse × Nat)
  | k, 0 =>
    if isLibRedirectStatus (hops k).status_code = true ∧
        (hops k).location.isSome = true
    then .error .tooManyRedirects
    else .ok (hops k, k)
  | k, r + 1 =>
    if isLibRedirectStatus (hops k).status_code = true ∧
        (hops k).location.isSome = true
    then requests_get hops (k + 1) r
    else .ok (hops k, k)

/-- The redirect-chasing loop of `sand/nasa.py: DownloadNASA._download`
(identical in `sand/copernicus_dataspace.py: DownloadCDSE._download`):
`while response.status_code in (301,302,303,307) and niter < 5`.  The
initial request is issued with `allow_redirects=False` (one raw hop);
every in-loop request for the `Location` URL is issued with
`allow_redirects=True`, so the HTTP library resolves the remaining
chain itself (`requests_get`).  `pos` is the chain position of the
current response `resp`. -/
def follow_redirects (hops : Nat → HttpResponse)
    (resp : HttpResponse) (pos niter : Nat) : Except DlErr HttpResponse :=
  if _h : isRedirectStatus resp.status_code = true ∧ niter < 5 then
    match resp.location with
    | none => .error .valueError
    | some _ =>
      match requests_get hops (pos + 1) 30 with
      | .error e => .error e
      | .ok (resp2, pos2) => follow_redirects hops resp2 pos2 (niter + 1)
  else .ok resp
termination_by 5 - niter
decreasing_by omega

/-- One request attempt of `DownloadNASA._download`: initial raw request
(`allow_redirects=False`), the loop, then `raise_api_error` on the
final response. -/
def request_phase (hops : Nat → HttpResponse) : Except DlErr Nat := do
  let resp ← follow_redirects hops (hops 0) 0 0
  raise_api_error resp

/-- The outer retry loop of
`sand/copernicus_dataspace.py: DownloadCDSE._download`:
`exp_timeout_cnt` starts at 1 and doubles after every failed attempt
(every exception is caught); once it reaches 16 the loop fails with
`RuntimeError("The server error bypass method failed")`.  Returns the
outcome together with the number of attempts issued;
`attempt i` is the result of the `i`-th attempt. -/
def cdse_retry_loop (attempt : Nat → Except DlErr Nat)
    (i exp_timeout_cnt : Nat) (hpos : 0 < exp_timeout_cnt) :
    Except DlErr Nat × Nat :=
  if 16 ≤ exp_timeout_cnt then (.error .runtimeError, i)
  else
    match attempt i with
    | .ok v => (.ok v, i + 1)
    | .error _ => cdse_retry_loop attempt (i + 1) (exp_timeout_cnt * 2) (by omega)
termination_by 16 - exp_timeout_cnt
decreasing_by omega

/-- `DownloadCDSE._download` entry: `status = False; exp_timeout_cnt = 1;
while not status: …`. -/
def cdse_download (attempt : Nat → Except DlErr Nat) : Except DlErr Nat × Nat :=
  cdse_retry_loop attempt 0 1 (by omega)

/-! ## `sand/results.py`: SandProduct and SandQuery -/

/-- `sand/results.py: SandProduct` (dataclass). -/
structure SandProduct where
  product_id : String
  date : String
  metadata : Json
  index : Option String := none

/-- `sand/results.py: SandQuery.__init__` — stores the product list as
given, without sorting. -/
structure SandQuery where
  products : List SandProduct

/-- Argument of Python `__getitem__`: an integer or a slice
(`start:stop`, step 1). -/
inductive PyIndex where
  | int : Int → PyIndex
  | slice : Option Int → Option Int → PyIndex

/-- The value `self.products[index]` evaluates to: a single element for
an integer index, a sub-list for a slice. -/
inductive PyVal where
  | one : SandProduct → PyVal
  | many : List SandProduct → PyVal

/-- Failures of `SandQuery.__getitem__`: Python `IndexError` on an
out-of-range integer index, `AssertionError` from
`assert isinstance(product, SandProduct)`. -/
inductive PyErr where
  | indexError : PyErr
  | assertionError : PyErr
  deriving DecidableEq

/-- Python list indexing `l[i]`: negative indices count from the end,
out-of-range raises `IndexError` (here `none`). -/
def pyListGet (l : List α) (i : Int) : Option α :=
  let n : Int := l.length
  let j := if i < 0 then i + n else i
  if 0 ≤ j ∧ j < n then l.get? j.toNat else none

/-- Clamp one slice bound to `[0, n]`, Python-style (negative bounds
count from the end). -/
def pySliceBound (n : Nat) (dflt : Nat) : Option Int → Nat
  | none => dflt
  | some i => if i < 0 then (i + n).toNat else min i.toNat n

/-- Python list slicing `l[a:b]` with step 1. -/
def pySlice (l : List α) (start stop : Option Int) : List α :=
  let a := pySliceBound l.length 0 start
  let b := pySliceBound l.length l.length stop
  (l.drop a).take (b - a)

/-- `self.products[index]` for an integer or slice index; a slice never
raises in Python and yields a list. -/
def pyGetItem (l : List SandProduct) (idx : PyIndex) : Except PyErr PyVal :=
  match idx with
  | .int i =>
    match pyListGet l i with
    | some p => .ok (.one p)
    | none => .error .indexError
  | .slice a b => .ok (.many (pySlice l a b))

/-- `sand/results.py: SandQuery.__getitem__` —
`product = self.products[index]; assert isinstance(product, SandProduct);
return product`.  The `isinstance` assertion holds for a single element
and fails for the list a slice produces. -/
def SandQuery.getitem (q : SandQuery) (idx : PyIndex) : Except PyErr PyVal := do
  let product ← pyGetItem q.products idx
  match product with
  | .one p => .ok (.one p)
  | .many _ => .error .assertionError

/-- `sand/results.py: SandQuery.__len__`. -/
def SandQuery.len (q : SandQuery) : Nat :=
  q.products.length

/-! ## `sand/base.py`: collection resolution -/

/-- One row of a per-provider collection CSV
(`SAND_name`, `level`, `collec`, `contains`). -/
structure CollecRow where
  sand_name : String
  level : Int
  collec : String
  contains : String

/-- Failures of `BaseDownload._get_collec_properties`: the `ValueError`
"Collection '…' does not exist for this downloader" (the spec's
`UnknownCollection`) and the `ReferenceError` "It is not possible to
download level-… product" (the spec's `UnsupportedLevel`). -/
inductive CollecErr where
  | unknownCollection : CollecErr
  | unsupportedLevel : CollecErr
  deriving DecidableEq

/-- `sand/base.py: BaseDownload._load_provider_properties` —
`self.available_collection = list(provider_prop['SAND_name'])`. -/
def available_collection (provider_prop : List CollecRow) : List String :=
  provider_prop.map (·.sand_name)

/-- `sand/base.py: BaseDownload._get_collec_properties` —
checks the name against `available_collection`, filters the table rows
by name then by level, and requires the result non-empty. -/
def _get_collec_properties (collection : String) (level : Int)
    (properties : List CollecRow) : Except CollecErr (List CollecRow) :=
  if collection ∈ available_collection properties then
    let collecs := properties.filter (fun r => r.sand_name == collection)
    let sand_props := collecs.filter (fun r => r.level == level)
    if sand_props.length > 0 then .ok sand_props
    else .error .unsupportedLevel
  else .error .unknownCollection

/-! ## `sand/base.py: BaseDownload.download_all` (parallel branch) -/

/-- `workers = min(1, len(products))`. -/
def pool_workers (n_products : Nat) : Nat :=
  min 1 n_products

/-- Modelled from the spec of Python's `multiprocessing.Pool`:
constructing a pool requires at least one process, otherwise it raises
`ValueError("Number of processes must be at least 1")`. -/
inductive PoolErr where
  | poolValueError : PoolErr
  deriving DecidableEq

/-- `sand/base.py: BaseDownload.download_all` with `parallelized=True`:
computes `workers = min(1, len(products))`, constructs `Pool(workers)`
(which fails for a zero-worker pool), and maps `self.download` over the
products. -/
def download_all_parallelized (download : α → β) (products : List α) :
    Except PoolErr (List β) :=
  let workers := pool_workers products.length
  if workers = 0 then .error .poolValueError
  else .ok (products.map download)

/-! ## `sand/cnes.py: DownloadCNES.query`, response phase -/

/-- `p["properties"]["identifier"]` on one feature. -/
def extract_identifier (p : Json) : Except QueryErr String :=
  match reduceTags ["properties", "identifier"] p with
  | some (.jstr s) => .ok s
  | _ => .error .keyError

/-- `[p for p in r if name.apply(p["properties"]["identifier"])]`. -/
def filter_by_name (name : Name) : List Json → Except QueryErr (List Json)
  | [] => .ok []
  | p :: rest => do
    let ident ← extract_identifier p
    let rest_f ← filter_by_name name rest
    if name.apply ident.data then .ok (p :: rest_f) else .ok rest_f

/-- `sand/cnes.py: DownloadCNES.query`, from the wire response on:
`check_too_many_matches(response.json(), ['context','returned'],
['context','matched'])`, then `r = response.json()['features']` and the
name filter.  Returns the records handed back to the caller. -/
def query_cnes_response (response : Json) (name : Name) :
    Except QueryErr (List Json) := do
  check_too_many_matches response ["context", "returned"] ["context", "matched"]
  match jsonGetKey response "features" with
  | some (.jarr feats) => filter_by_name name feats
  | _ => .error .keyError

/-! ## Concrete fixtures used by witnesses and counterexamples -/

/-- The product list of `tests/test_results.py: test_sandquery_indexing`:
`product_{i%10}` for `i in range(5, 15)` — wire order starts at
`product_5`. -/
def c2_products : List SandProduct :=
  [⟨"product_5", "2024-01-01", .null, some "5"⟩,
   ⟨"product_6", "2024-01-01", .null, some "6"⟩,
   ⟨"product_7", "2024-01-01", .null, some "7"⟩,
   ⟨"product_8", "2024-01-01", .null, some "8"⟩,
   ⟨"product_9", "2024-01-01", .null, some "9"⟩,
   ⟨"product_0", "2024-01-01", .null, some "0"⟩,
   ⟨"product_1", "2024-01-01", .null, some "1"⟩,
   ⟨"product_2", "2024-01-01", .null, some "2"⟩,
   ⟨"product_3", "2024-01-01", .null, some "3"⟩,
   ⟨"product_4", "2024-01-01", .null, some "4"⟩]

/-- A small product list, as in
`tests/test_results.py: test_sandquery_slicing`. -/
def c5_products : List SandProduct :=
  [⟨"product_0", "2024-01-01", .null, some "0"⟩,
   ⟨"product_1", "2024-01-01", .null, some "1"⟩,
   ⟨"product_2", "2024-01-01", .null, some "2"⟩]

/-- A one-row provider table: SENTINEL-2-MSI at level 1. -/
def t9_table : List CollecRow :=
  [⟨"SENTINEL-2-MSI", 1, "SENTINEL-2", "MSIL1C"⟩]

/-- Stub server: exactly 5 redirects, then 200. -/
def c3_responses_ok (k : Nat) : HttpResponse :=
  if k < 5 then ⟨301, some "next"⟩ else ⟨200, none⟩

/-- Stub server: exactly 6 redirects, then 200. -/
def c3_responses_six (k : Nat) : HttpResponse :=
  if k < 6 then ⟨301, some "next"⟩ else ⟨200, none⟩

/-- A name constraint as CNES builds it for SENTINEL-2 level 1. -/
def c1_name : Name :=
  { contains := ["MSIL1C".data] }

/-- A CNES STAC feature with identifier `S2A_MSIL1C_A`. -/
def c1_feature1 : Json :=
  .jobj [("properties", .jobj [("identifier", .jstr "S2A_MSIL1C_A")]),
         ("id", .jstr "idx-1")]

/-- A CNES STAC feature with identifier `S2B_MSIL1C_B`. -/
def c1_feature2 : Json :=
  .jobj [("properties", .jobj [("identifier", .jstr "S2B_MSIL1C_B")]),
         ("id", .jstr "idx-2")]

/-- Stub wire response: `returned == matched`, two features. -/
def c1_response_ok : Json :=
  .jobj [("context", .jobj [("returned", .jint 2), ("matched", .jint 2)]),
         ("features", .jarr [c1_feature1, c1_feature2])]

/-- Stub wire response: truncated (`returned < matched`). -/
def c1_response_trunc : Json :=
  .jobj [("context", .jobj [("returned", .jint 2), ("matched", .jint 5)]),
         ("features", .jarr [c1_feature1, c1_feature2])]

/-! ## Helper lemmas -/

theorem pymod_eq_self {a b : ℚ} (h0 : 0 ≤ a) (hab : a < b) : pymod a b = a := by
  have hb : 0 < b := lt_of_le_of_lt h0 hab
  have hfloor : ⌊a / b⌋ = 0 := by
    rw [Int.floor_eq_zero_iff]
    constructor
    · exact div_nonneg h0 hb.le
    · exact (div_lt_one hb).2 hab
  simp [pymod, hfloor]

theorem pymod_sub_int_mul (a : ℚ) (k : ℤ) :
    pymod (a - 360 * k) 360 = pymod a 360 := by
  have hdiv : (a - 360 * k) / 360 = a / 360 - k := by
    field_simp
  unfold pymod
  rw [hdiv, Int.floor_sub_int]
  push_cast
  ring

theorem deriv_star_dot (c : Char) :
    Regex.deriv (.star .dot) c = if c = '\n' then .fail else .star .dot := by
  by_cases hc : c = '\n' <;> simp [Regex.deriv, Regex.catS, hc]

theorem foldl_deriv_fail (s : List Char) :
    s.foldl Regex.deriv .fail = .fail := by
  induction s with
  | nil => rfl
  | cons c t ih => simp [Regex.deriv, ih]

theorem fullmatch_star_dot (s : List Char) :
    Regex.fullmatch (.star .dot) s = true ↔ '\n' ∉ s := by
  induction s with
  | nil => simp [Regex.fullmatch, Regex.nullable]
  | cons c t ih =>
    simp only [Regex.fullmatch, List.foldl_cons] at *
    rw [deriv_star_dot]
    by_cases hc : c = '\n'
    · simp [hc, foldl_deriv_fail, Regex.nullable]
    · simp only [if_neg hc, ih, List.mem_cons]
      constructor
      · intro hn h
        rcases h with h | h
        · exact hc h.symm
        · exact hn h
      · intro hn
        exact fun h => hn (Or.inr h)

/-! ## Claims -/

/-- C7: for every longitude, the convention-changing transform equals
`((lon + pivot) mod 360) - pivot` with `pivot = 180 - targetConvention`
(shown for both target conventions 0 and 180, relating
`constraint.py: _change_lon_convention` to the two branches of
`tinyfunc.py: change_lon_convention`), and the round trip
0-centered → 180-centered → 0-centered is the identity on
`[-180, 180)`. -/
theorem C7_lon_convention :
    (∀ lon : ℚ, _change_lon_convention lon 0 = lon_to_0 lon) ∧
    (∀ lon : ℚ, _change_lon_convention lon 180 = lon_to_180 lon) ∧
    (∀ lon : ℚ, -180 ≤ lon → lon < 180 → lon_to_0 (lon_to_180 lon) = lon) := by
  refine ⟨fun lon => by norm_num [_change_lon_convention, lon_to_0],
          fun lon => by norm_num [_change_lon_convention, lon_to_180],
          fun lon h1 h2 => ?_⟩
  have e1 : lon_to_180 lon + 180 = (lon + 180) - 360 * (⌊lon / 360⌋ : ℤ) := by
    unfold lon_to_180 pymod
    ring
  rw [lon_to_0, e1, pymod_sub_int_mul, pymod_eq_self (by linarith) (by linarith)]
  ring

/-- C7 witness: the round trip at `lon = -45`: converting to the
180-centered convention gives 315, converting back gives -45. -/
theorem C7_lon_convention_witness :
    lon_to_180 (-45) = 315 ∧ lon_to_0 (lon_to_180 (-45)) = -45 := by
  constructor
  · have h : ⌊(-45 : ℚ) / 360⌋ = -1 := by
      rw [Int.floor_eq_iff]
      norm_num
    unfold lon_to_180 pymod
    rw [h]
    norm_num
  · exact C7_lon_convention.2.2 (-45) (by norm_num) (by norm_num)

/-- C8 (amended): `_check_latlon` fails exactly when the latitude is
outside the half-open interval `[-90, 90)` — so `lat = -90` is accepted
but `lat = 90` is rejected — and no longitude ever makes it fail, at
most a warning is logged, exactly when `lon` is outside `[-180, 360)`. -/
theorem C8_check_latlon :
    ∀ lat lon : ℚ,
      ((_check_latlon lat lon).fails = true ↔ lat < -90 ∨ 90 ≤ lat) ∧
      ((_check_latlon lat lon).warns = true ↔ lon < -180 ∨ 360 ≤ lon) := by
  intro lat lon
  constructor
  · simp [_check_latlon, not_and_or, not_le, not_lt]
  · simp [_check_latlon, not_and_or, not_le, not_lt]

/-- C8 counterexample: the claim says `lat = 90` is accepted, but
`_check_latlon` checks `-90 <= lat < 90` and so fails at `lat = 90`
(while `lat = -90` is indeed accepted). -/
theorem C8_check_latlon_counterexample :
    (_check_latlon 90 0).fails = true ∧ (_check_latlon (-90) 0).fails = false := by
  constructor <;> rfl

/-- C6 (amended): `Name.apply` returns true iff the candidate contains
every listed substring, starts with the prefix, ends with the suffix,
and fully matches the glob pattern, where the absent sub-constraints
default to vacuous values except the glob, which defaults to the
pattern `.*` — and since Python `.` does not match a newline, the empty
`NameConstraint` matches exactly the candidates that contain no newline
character. -/
theorem C6_name_apply :
    (∀ (n : Name) (s : List Char),
      n.apply s = true ↔
        ((∀ e ∈ n.contains, containsSubB s e = true) ∧
         startsWithB s n.startswith = true ∧
         endsWithB s n.endswith = true ∧
         n.glob.fullmatch s = true)) ∧
    (∀ s : List Char, ({} : Name).apply s = true ↔ '\n' ∉ s) := by
  constructor
  · intro n s
    simp [Name.apply, check_name_contains, check_name_startswith,
      check_name_endswith, check_name_glob, List.all_eq_true, and_assoc]
  · intro s
    simp [Name.apply, check_name_contains, check_name_startswith,
      check_name_endswith, check_name_glob, startsWithB, endsWithB,
      fullmatch_star_dot]

/-- C6 counterexample: the empty `NameConstraint` does not match every
candidate: `Name().apply("a\nb")` is false, because the default glob
`".*"` is evaluated with `re.fullmatch` and `.` does not match `'\n'`. -/
theorem C6_name_apply_counterexample :
    ({} : Name).apply ['a', '\n', 'b'] = false := by
  rfl

/-- C6 witness: at a concrete non-empty constraint and candidate —
the SENTINEL-2 level-1 constraint accepts `S2A_MSIL1C_A` (all four
sub-checks hold), and the empty constraint accepts it too. -/
theorem C6_name_apply_witness :
    (c1_name.apply "S2A_MSIL1C_A".data = true) ∧
    (({} : Name).apply "S2A_MSIL1C_A".data = true) := by
  constructor
  · exact (C6_name_apply.1 c1_name "S2A_MSIL1C_A".data).2
      ⟨by decide, by decide, by decide, by decide⟩
  · exact (C6_name_apply.2 "S2A_MSIL1C_A".data).2 (by decide)

/-- C9: collection resolution fails with the `UnknownCollection` error
whenever the generic name is absent from the provider table, for every
level; fails with the distinct `UnsupportedLevel` error when the name is
present but no row matches the level; and is deterministic — equal
arguments give structurally equal row sets. -/
theorem C9_collection_resolution :
    ∀ (properties : List CollecRow) (collection : String) (level : Int),
      (collection ∉ available_collection properties →
        _get_collec_properties collection level properties =
          .error .unknownCollection) ∧
      (collection ∈ available_collection properties →
        (∀ r ∈ properties, r.sand_name = collection → r.level ≠ level) →
        _get_collec_properties collection level properties =
          .error .unsupportedLevel) ∧
      (∀ rows1 rows2,
        _get_collec_properties collection level properties = .ok rows1 →
        _get_collec_properties collection level properties = .ok rows2 →
        rows1 = rows2) ∧
      CollecErr.unknownCollection ≠ CollecErr.unsupportedLevel := by
  intro properties collection level
  refine ⟨fun hmem => ?_, fun hmem hlvl => ?_,
          fun rows1 rows2 h1 h2 => Except.ok.inj (h1.symm.trans h2), by decide⟩
  · simp only [_get_collec_properties]
    rw [if_neg hmem]
  · simp only [_get_collec_properties]
    rw [if_pos hmem]
    have hempty : (properties.filter (fun r => r.sand_name == collection)).filter
        (fun r => r.level == level) = [] := by
      rw [List.filter_eq_nil_iff]
      intro r hr
      have hr1 := List.mem_filter.1 hr
      have hname : r.sand_name = collection := by simpa using hr1.2
      simpa using hlvl r hr1.1 hname
    rw [hempty]
    simp

/-- C9 witness: on a one-row table for SENTINEL-2-MSI level 1, an
unknown collection name fails with `UnknownCollection`, a known name at
a missing level fails with `UnsupportedLevel`, and the valid pair
resolves to the row. -/
theorem C9_collection_resolution_witness :
    _get_collec_properties "LANDSAT-5" 1 t9_table = .error .unknownCollection ∧
    _get_collec_properties "SENTINEL-2-MSI" 2 t9_table = .error .unsupportedLevel ∧
    _get_collec_properties "SENTINEL-2-MSI" 1 t9_table =
      .ok [⟨"SENTINEL-2-MSI", 1, "SENTINEL-2", "MSIL1C"⟩] := by
  refine ⟨(C9_collection_resolution t9_table "LANDSAT-5" 1).1 (by decide),
          (C9_collection_resolution t9_table "SENTINEL-2-MSI" 2).2.1
            (by decide) (by decide), rfl⟩

/-- C10: `download_all(parallelized=True)` computes
`workers = min(1, len(products))`: one pool worker for every non-empty
product list, so downloads are serialized despite the flag, and a
zero-worker pool construction for the empty list instead of an empty
result. -/
theorem C10_download_all :
    ∀ {α β : Type} (download : α → β) (products : List α),
      (products ≠ [] →
        pool_workers products.length = 1 ∧
        download_all_parallelized download products =
          .ok (products.map download)) ∧
      (products = [] →
        pool_workers products.length = 0 ∧
        download_all_parallelized download products =
          .error .poolValueError) := by
  intro α β download products
  constructor
  · intro hne
    have hlen : 0 < products.length := List.length_pos.2 hne
    have hw : pool_workers products.length = 1 := Nat.min_eq_left hlen
    refine ⟨hw, ?_⟩
    simp only [download_all_parallelized]
    rw [hw]
    norm_num
  · intro he
    subst he
    exact ⟨rfl, rfl⟩

/-- C10 witness: two products are downloaded through the one-worker
pool; the empty list makes the pool construction fail. -/
theorem C10_download_all_witness :
    download_all_parallelized (fun n : Nat => n + 1) [3, 4] = .ok [4, 5] ∧
    download_all_parallelized (fun n : Nat => n + 1) ([] : List Nat) =
      .error .poolValueError := by
  constructor
  · exact ((C10_download_all (fun n : Nat => n + 1) [3, 4]).1 (by simp)).2
  · exact ((C10_download_all (fun n : Nat => n + 1) ([] : List Nat)).2 rfl).2

/-- C5: integer indexing returns a single product and length works, but
slice indexing never returns a `SandQuery`: `__getitem__` asserts
`isinstance(product, SandProduct)` on the value of
`self.products[index]`, which for a slice is a list, so every slice
access raises `AssertionError` — contradicting the claim and the repo's
own test `test_sandquery_slicing`. -/
theorem C5_getitem_slice :
    (∀ (ps : List SandProduct) (a b : Option Int),
      SandQuery.getitem ⟨ps⟩ (.slice a b) = .error .assertionError) ∧
    SandQuery.getitem ⟨c5_products⟩ (.slice none (some 4)) =
      .error .assertionError ∧
    SandQuery.getitem ⟨c5_products⟩ (.int 0) =
      .ok (.one ⟨"product_0", "2024-01-01", .null, some "0"⟩) ∧
    SandQuery.len ⟨c5_products⟩ = 3 := by
  exact ⟨fun ps a b => rfl, rfl, rfl, rfl⟩

/-- C2: `SandQuery.__init__` stores the wire-order product list without
sorting, so on the product list of the repo's own test
`test_sandquery_indexing` (wire order `product_5 … product_9,
product_0 … product_4`) the first element is `product_5`, not the
`product_0` the test (and the claim) expect, and the last is
`product_4`, not `product_9`. -/
theorem C2_query_order :
    SandQuery.getitem ⟨c2_products⟩ (.int 0) =
      .ok (.one ⟨"product_5", "2024-01-01", .null, some "5"⟩) ∧
    SandQuery.getitem ⟨c2_products⟩ (.int (-1)) =
      .ok (.one ⟨"product_4", "2024-01-01", .null, some "4"⟩) ∧
    ("product_5" : String) ≠ "product_0" := by
  exact ⟨rfl, rfl, by decide⟩

/-- The engine's redirect statuses are a subset of the library's. -/
theorem isRedirect_imp_lib {s : Nat}
    (h : isRedirectStatus s = true) : isLibRedirectStatus s = true := by
  simp [isRedirectStatus] at h
  rcases h with ((rfl | rfl) | rfl) | rfl <;> decide

/-- `requests_get` on a final response (not a followable redirect). -/
theorem requests_get_stop (hops : Nat → HttpResponse) (k remaining : Nat)
    (h : ¬(isLibRedirectStatus (hops k).status_code = true ∧
      (hops k).location.isSome = true)) :
    requests_get hops k remaining = .ok (hops k, k) := by
  cases remaining <;> (simp only [requests_get]; rw [if_neg h])

/-- `requests_get` follows one hop of a redirect chain. -/
theorem requests_get_step (hops : Nat → HttpResponse) (k r : Nat)
    (h : isLibRedirectStatus (hops k).status_code = true ∧
      (hops k).location.isSome = true) :
    requests_get hops k (r + 1) = requests_get hops (k + 1) r := by
  simp only [requests_get]
  rw [if_pos h]

/-- `requests_get` with an exhausted budget on a redirect raises
`TooManyRedirects`. -/
theorem requests_get_exhausted (hops : Nat → HttpResponse) (k : Nat)
    (h : isLibRedirectStatus (hops k).status_code = true ∧
      (hops k).location.isSome = true) :
    requests_get hops k 0 = .error .tooManyRedirects := by
  simp only [requests_get]
  rw [if_pos h]

/-- The library resolves a finite redirect chain within budget: if
positions `k..m-1` redirect and position `m` does not, `requests_get`
from `k` returns the response at `m`. -/
theorem requests_get_resolves (hops : Nat → HttpResponse) (m : Nat)
    (hnr : ¬(isLibRedirectStatus (hops m).status_code = true ∧
      (hops m).location.isSome = true)) :
    ∀ remaining k, k ≤ m → m - k ≤ remaining →
      (∀ j, k ≤ j → j < m → isLibRedirectStatus (hops j).status_code = true ∧
        (hops j).location.isSome = true) →
      requests_get hops k remaining = .ok (hops m, m) := by
  intro remaining
  induction remaining with
  | zero =>
    intro k hk hrem _hred
    have hkm : k = m := by omega
    subst hkm
    exact requests_get_stop _ _ _ hnr
  | succ r ih =>
    intro k hk hrem hred
    by_cases hkm : k = m
    · subst hkm
      exact requests_get_stop _ _ _ hnr
    · have hklt : k < m := by omega
      rw [requests_get_step _ _ _ (hred k le_rfl hklt)]
      exact ih (k + 1) (by omega) (by omega) (fun j hj1 hj2 => hred j (by omega) hj2)

/-- On an endless redirect chain the library exhausts its budget and
raises `TooManyRedirects`, whatever the starting position. -/
theorem requests_get_all_redirect (hops : Nat → HttpResponse)
    (hall : ∀ j, isLibRedirectStatus (hops j).status_code = true ∧
      (hops j).location.isSome = true) :
    ∀ remaining k, requests_get hops k remaining = .error .tooManyRedirects := by
  intro remaining
  induction remaining with
  | zero => intro k; exact requests_get_exhausted _ _ (hall k)
  | succ r ih =>
    intro k
    rw [requests_get_step _ _ _ (hall k)]
    exact ih (k + 1)

/-- Unfolding of `follow_redirects` when the loop condition fails. -/
theorem follow_redirects_stop (hops : Nat → HttpResponse)
    (resp : HttpResponse) (pos niter : Nat)
    (h : ¬(isRedirectStatus resp.status_code = true ∧ niter < 5)) :
    follow_redirects hops resp pos niter = .ok resp := by
  conv_lhs => rw [follow_redirects]
  rw [dif_neg h]

/-- Unfolding of `follow_redirects` on a redirect with a `Location`,
when the library resolves the follow-up request to a final response. -/
theorem follow_redirects_step_lib (hops : Nat → HttpResponse)
    (resp : HttpResponse) (pos niter : Nat)
    (h : isRedirectStatus resp.status_code = true ∧ niter < 5)
    (u : String) (hloc : resp.location = some u)
    (resp2 : HttpResponse) (pos2 : Nat)
    (hget : requests_get hops (pos + 1) 30 = .ok (resp2, pos2)) :
    follow_redirects hops resp pos niter =
      follow_redirects hops resp2 pos2 (niter + 1) := by
  conv_lhs => rw [follow_redirects]
  rw [dif_pos h, hloc, hget]

/-- Unfolding of `follow_redirects` on a redirect with a `Location`,
when the library's follow-up request itself fails. -/
theorem follow_redirects_liberr (hops : Nat → HttpResponse)
    (resp : HttpResponse) (pos niter : Nat)
    (h : isRedirectStatus resp.status_code = true ∧ niter < 5)
    (u : String) (hloc : resp.location = some u)
    (e : DlErr) (hget : requests_get hops (pos + 1) 30 = .error e) :
    follow_redirects hops resp pos niter = .error e := by
  conv_lhs => rw [follow_redirects]
  rw [dif_pos h, hloc, hget]

/-- A redirect chain of length `m ≤ 31` ending in a 200 makes the
request phase succeed: the raw initial response redirects, the single
in-loop library request resolves the whole remaining chain. -/
theorem request_phase_chain (hops : Nat → HttpResponse) (m : Nat)
    (hm1 : 1 ≤ m) (hm : m ≤ 31)
    (hred : ∀ k, k < m → isRedirectStatus (hops k).status_code = true ∧
      ∃ u, (hops k).location = some u)
    (h200 : (hops m).status_code = 200) :
    request_phase hops = .ok 200 := by
  obtain ⟨hred0, u0, hl0⟩ :
      isRedirectStatus (hops 0).status_code = true ∧
        ∃ u, (hops 0).location = some u := hred 0 (by omega)
  have hnr : ¬(isLibRedirectStatus (hops m).status_code = true ∧
      (hops m).location.isSome = true) := by
    intro hc
    have := hc.1
    rw [h200] at this
    exact absurd this (by decide)
  have hget : requests_get hops 1 30 = .ok (hops m, m) :=
    requests_get_resolves hops m hnr 30 1 hm1 (by omega)
      (fun j hj1 hj2 => ⟨isRedirect_imp_lib (hred j hj2).1, by
        obtain ⟨u, hu⟩ := (hred j hj2).2
        rw [hu]
        rfl⟩)
  unfold request_phase
  rw [follow_redirects_step_lib hops (hops 0) 0 0 ⟨hred0, by omega⟩ u0 hl0
        (hops m) m hget,
      follow_redirects_stop hops (hops m) m 1
        (fun hc => by rw [h200] at hc; exact absurd hc.1 (by decide))]
  simp [raise_api_error, h200, bind, Except.bind]

/-- C3 (amended): the engine's redirect loop is bounded at 5 iterations,
but each in-loop request is issued with `allow_redirects=True`, so the
HTTP library itself follows the remaining redirect chain (within its
own 30-hop cap): with exactly 5 redirects then 200 the transfer
succeeds, and with 6 redirects then 200 it also succeeds — the 6th
redirect is followed by the library, not surfaced as a `RedirectLoop`
failure; an endless redirect chain is cut off by the library's
`TooManyRedirects` error, so the transfer still never runs forever. -/
theorem C3_redirect_following :
    ∀ hops : Nat → HttpResponse,
      ((∀ k, k < 5 → isRedirectStatus (hops k).status_code = true ∧
          ∃ u, (hops k).location = some u) →
        (hops 5).status_code = 200 → request_phase hops = .ok 200) ∧
      ((∀ k, k < 6 → isRedirectStatus (hops k).status_code = true ∧
          ∃ u, (hops k).location = some u) →
        (hops 6).status_code = 200 → request_phase hops = .ok 200) ∧
      ((∀ k, isRedirectStatus (hops k).status_code = true ∧
          ∃ u, (hops k).location = some u) →
        request_phase hops = .error .tooManyRedirects) := by
  intro hops
  refine ⟨fun hred h200 => request_phase_chain hops 5 (by omega) (by omega) hred h200,
          fun hred h200 => request_phase_chain hops 6 (by omega) (by omega) hred h200,
          fun hall => ?_⟩
  obtain ⟨hred0, u0, hl0⟩ :
      isRedirectStatus (hops 0).status_code = true ∧
        ∃ u, (hops 0).location = some u := hall 0
  have hget : requests_get hops 1 30 = .error .tooManyRedirects :=
    requests_get_all_redirect hops
      (fun j => ⟨isRedirect_imp_lib (hall j).1, by
        obtain ⟨u, hu⟩ := (hall j).2
        rw [hu]
        rfl⟩) 30 1
  unfold request_phase
  rw [follow_redirects_liberr hops (hops 0) 0 0 ⟨hred0, by omega⟩ u0 hl0
        .tooManyRedirects hget]
  rfl

/-- C3 counterexample: the claim says a 6th redirect is surfaced as a
reported failure (`RedirectLoop`) rather than being followed; in fact
the in-loop `session.get(..., allow_redirects=True)` lets the HTTP
library follow it, and against the stub answering exactly 6 redirects
then 200 the transfer succeeds. -/
theorem C3_redirect_following_counterexample :
    request_phase c3_responses_six = .ok 200 := by
  have hget : requests_get c3_responses_six 1 30 = .ok (⟨200, none⟩, 6) := rfl
  unfold request_phase
  rw [follow_redirects_step_lib c3_responses_six (c3_responses_six 0) 0 0
        ⟨rfl, by omega⟩ "next" rfl ⟨200, none⟩ 6 hget,
      follow_redirects_stop c3_responses_six ⟨200, none⟩ 6 1 (by decide)]
  rfl

/-- C3 witness: the 5-redirect stub succeeds, the 6-redirect stub also
succeeds, and the endlessly redirecting stub is cut off with
`TooManyRedirects` rather than looping forever. -/
theorem C3_redirect_following_witness :
    request_phase c3_responses_ok = .ok 200 ∧
    request_phase c3_responses_six = .ok 200 ∧
    request_phase (fun _ => ⟨301, some "next"⟩) = .error .tooManyRedirects := by
  refine ⟨(C3_redirect_following c3_responses_ok).1 (fun k hk => ?_) rfl,
          (C3_redirect_following c3_responses_six).2.1 (fun k hk => ?_) rfl,
          (C3_redirect_following _).2.2 (fun k => ⟨rfl, "next", rfl⟩)⟩
  · constructor
    · simp [c3_responses_ok, hk, isRedirectStatus]
    · exact ⟨"next", by simp [c3_responses_ok, hk]⟩
  · constructor
    · simp [c3_responses_six, hk, isRedirectStatus]
    · exact ⟨"next", by simp [c3_responses_six, hk]⟩

/-- Unfolding of `cdse_retry_loop` when the counter is exhausted. -/
theorem cdse_retry_stop (attempt : Nat → Except DlErr Nat)
    (i cnt : Nat) (hpos : 0 < cnt) (h : 16 ≤ cnt) :
    cdse_retry_loop attempt i cnt hpos = (.error .runtimeError, i) := by
  conv_lhs => rw [cdse_retry_loop]
  rw [if_pos h]

/-- Unfolding of `cdse_retry_loop` on a successful attempt. -/
theorem cdse_retry_ok (attempt : Nat → Except DlErr Nat)
    (i cnt : Nat) (hpos : 0 < cnt) (h : ¬16 ≤ cnt)
    (v : Nat) (hv : attempt i = .ok v) :
    cdse_retry_loop attempt i cnt hpos = (.ok v, i + 1) := by
  conv_lhs => rw [cdse_retry_loop]
  rw [if_neg h, hv]

/-- Unfolding of `cdse_retry_loop` on a failed attempt: the counter
doubles and the next attempt is issued. -/
theorem cdse_retry_err (attempt : Nat → Except DlErr Nat)
    (i cnt : Nat) (hpos : 0 < cnt) (h : ¬16 ≤ cnt)
    (e : DlErr) (he : attempt i = .error e) :
    cdse_retry_loop attempt i cnt hpos =
      cdse_retry_loop attempt (i + 1) (cnt * 2) (by omega) := by
  conv_lhs => rw [cdse_retry_loop]
  rw [if_neg h, he]

/-- C4 (amended): NASA's transfer engine surfaces a non-redirect error
status (in particular any permanent 4xx) immediately — one request, no
retry; CDSE's engine instead catches every failed attempt, including
permanent 4xx client errors, and retries with a doubling backoff
counter until it reaches 16, so a persistent failure costs exactly 4
attempts and is then reported as the generic `RuntimeError`, not the
original client error. -/
theorem C4_client_error_policy :
    (∀ responses : Nat → HttpResponse,
      isRedirectStatus (responses 0).status_code = false →
      300 < (responses 0).status_code →
      request_phase responses = .error (.apiError (responses 0).status_code)) ∧
    (∀ attempt : Nat → Except DlErr Nat,
      (∀ i, ∃ e, attempt i = Except.error e) →
      cdse_download attempt = (.error .runtimeError, 4)) := by
  constructor
  · intro responses hnr hgt
    unfold request_phase
    rw [follow_redirects_stop _ _ _ _ (fun hc => by rw [hnr] at hc; simp at hc)]
    simp [raise_api_error, hgt, bind, Except.bind]
  · intro attempt hfail
    obtain ⟨e0, h0⟩ := hfail 0
    obtain ⟨e1, h1⟩ := hfail 1
    obtain ⟨e2, h2⟩ := hfail 2
    obtain ⟨e3, h3⟩ := hfail 3
    unfold cdse_download
    rw [cdse_retry_err _ _ _ _ (by omega) e0 h0,
        cdse_retry_err _ _ _ _ (by omega) e1 h1,
        cdse_retry_err _ _ _ _ (by omega) e2 h2,
        cdse_retry_err _ _ _ _ (by omega) e3 h3,
        cdse_retry_stop _ _ _ _ (by omega)]

/-- C4 counterexample: a server that always answers 404 does not make
the CDSE engine fail immediately with the client error after one
attempt — the engine issues 4 attempts and reports `RuntimeError`. -/
theorem C4_client_error_policy_counterexample :
    cdse_download (fun _ => .error (.apiError 404)) =
      (.error .runtimeError, 4) ∧
    ((.error .runtimeError, 4) : Except DlErr Nat × Nat) ≠
      ((.error (.apiError 404), 1) : Except DlErr Nat × Nat) := by
  constructor
  · unfold cdse_download
    rw [cdse_retry_err _ _ _ _ (by omega) _ rfl,
        cdse_retry_err _ _ _ _ (by omega) _ rfl,
        cdse_retry_err _ _ _ _ (by omega) _ rfl,
        cdse_retry_err _ _ _ _ (by omega) _ rfl,
        cdse_retry_stop _ _ _ _ (by omega)]
  · simp

/-- C4 witness: NASA surfaces a direct 404 immediately; CDSE exhausts
its retry counter on a persistently failing attempt. -/
theorem C4_client_error_policy_witness :
    request_phase (fun _ => ⟨404, none⟩) = .error (.apiError 404) ∧
    cdse_download (fun _ => .error (.apiError 403)) =
      (.error .runtimeError, 4) := by
  exact ⟨C4_client_error_policy.1 (fun _ => ⟨404, none⟩) rfl (by decide),
         C4_client_error_policy.2 _ (fun i => ⟨_, rfl⟩)⟩

/-- `jsonBeq` on two integers is Python integer equality. -/
theorem jsonBeq_jint (a b : Int) : jsonBeq (.jint a) (.jint b) = (a == b) := by
  simp [jsonBeq]

/-- A feature list all of whose identifiers pass the name constraint is
returned unchanged by the CNES name filter. -/
theorem filter_by_name_all_pass (name : Name) :
    ∀ feats : List Json,
      (∀ p ∈ feats, ∃ id, extract_identifier p = .ok id ∧
        name.apply id.data = true) →
      filter_by_name name feats = .ok feats := by
  intro feats
  induction feats with
  | nil => intro _; rfl
  | cons p rest ih =>
    intro h
    obtain ⟨id, hid, happ⟩ := h p (by simp)
    have hrest := ih (fun q hq => h q (by simp [hq]))
    simp [filter_by_name, hid, hrest, happ, bind, Except.bind]

/-- C1: for a wire response carrying a returned count and a matched
count (CNES/GEODES tag paths `context.returned` / `context.matched`),
the truncation gate passes iff the counts are equal; the query fails
with the `TooManyMatches` error whenever returned < matched; and when
the counts are equal it succeeds and hands back exactly the records of
the response (here: all features passing the name constraint). -/
theorem C1_too_many_matches :
    ∀ (response : Json) (name : Name) (a b : Int),
      reduceTags ["context", "returned"] response = some (.jint a) →
      reduceTags ["context", "matched"] response = some (.jint b) →
      ((check_too_many_matches response ["context", "returned"]
          ["context", "matched"] = .ok () ↔ a = b) ∧
       (a < b → query_cnes_response response name = .error .tooManyMatches) ∧
       (a = b → ∀ feats,
          jsonGetKey response "features" = some (.jarr feats) →
          (∀ p ∈ feats, ∃ id, extract_identifier p = .ok id ∧
            name.apply id.data = true) →
          query_cnes_response response name = .ok feats)) := by
  intro response name a b hr hm
  have hcheck : check_too_many_matches response ["context", "returned"]
      ["context", "matched"] =
      if a = b then .ok () else .error .tooManyMatches := by
    unfold check_too_many_matches
    rw [hr, hm]
    by_cases hab : a = b <;> simp [jsonBeq_jint, hab]
  refine ⟨?_, ?_, ?_⟩
  · rw [hcheck]
    by_cases hab : a = b <;> simp [hab]
  · intro hab
    unfold query_cnes_response
    rw [hcheck, if_neg (by omega)]
    rfl
  · intro hab feats hfeats hall
    unfold query_cnes_response
    rw [hcheck, if_pos hab]
    simp only [bind, Except.bind]
    rw [hfeats]
    exact filter_by_name_all_pass name feats hall

/-- C1 witness: on the stub response with returned = 2 < matched = 5
the query fails with `TooManyMatches`; on the stub with
returned = matched = 2 it succeeds and returns exactly the two
features. -/
theorem C1_too_many_matches_witness :
    query_cnes_response c1_response_trunc c1_name = .error .tooManyMatches ∧
    query_cnes_response c1_response_ok c1_name = .ok [c1_feature1, c1_feature2] ∧
    check_too_many_matches c1_response_ok ["context", "returned"]
      ["context", "matched"] = .ok () := by
  have ht := C1_too_many_matches c1_response_trunc c1_name 2 5 rfl rfl
  have ho := C1_too_many_matches c1_response_ok c1_name 2 2 rfl rfl
  refine ⟨ht.2.1 (by omega), ho.2.2 rfl [c1_feature1, c1_feature2] rfl ?_,
          ho.1.2 rfl⟩
  intro p hp
  simp only [List.mem_cons, List.not_mem_nil, or_false] at hp
  rcases hp with hp | hp
  · exact hp ▸ ⟨"S2A_MSIL1C_A", rfl, by decide⟩
  · exact hp ▸ ⟨"S2B_MSIL1C_B", rfl, by decide⟩

end Sand
